import Mathlib

/-!
Verification of the CommisionSaver WhatsApp booking service.

Shallow embedding of the code under the repository root: the SQLite schema
of database.js becomes a record of lists, the model modules
(models/booking.js, models/route.js, models/operator.js, models/messageLog.js)
become pure functions over that record, and the webhook handlers of
routes/webhook.js together with services/reminder.js become explicit
state-passing functions.  Outbound WhatsApp sends (services/whatsapp.js)
can throw in the source; they are modelled with an oracle deciding whether
the i-th send attempt throws, and thrown errors are propagated as
Except values carrying the state at throw time, mirroring the try/catch
structure of the source.

Timestamps are modelled as natural numbers: journey_date (a DATE column) as
an ordered day index, departure_time (a TEXT HH:MM column) as minutes of the
day, and DATETIME values as minutes, so that the SQLite datetime comparisons
of models/booking.js translate to Nat comparisons.
-/

namespace CommisionSaver

/-- Row of the operators table (database.js). -/
structure Operator where
  id : Nat
  name : String
  phone_number : String
  approved : Bool
deriving Repr, DecidableEq

/-- Row of the routes table (database.js).  price REAL is modelled as a
numeric value; no claim depends on it. -/
structure Route where
  id : Nat
  operator_id : Nat
  source : String
  destination : String
  departure_time : Nat
  price : Nat
deriving Repr, DecidableEq

/-- Row of the bookings table (database.js).  Note the schema has no
hold_expires_at column and status is free TEXT defaulting to pending. -/
structure Booking where
  id : Nat
  customer_name : Option String
  customer_phone : String
  route_id : Nat
  journey_date : Nat
  seat_count : Nat
  status : String
  created_at : Nat
deriving Repr, DecidableEq, Inhabited

/-- Row of the message_logs table (database.js). -/
structure MessageLog where
  id : Nat
  booking_id : Option Nat
  type : String
  sent_at : Nat
deriving Repr, DecidableEq

/-- The SQLite database state, plus the AUTOINCREMENT counters. -/
structure DB where
  operators : List Operator
  routes : List Route
  bookings : List Booking
  message_logs : List MessageLog
  next_booking_id : Nat
  next_log_id : Nat
deriving Repr, DecidableEq

namespace operatorModel

/-- models/operator.js findByPhone: SELECT * FROM operators WHERE phone_number = ?. -/
def findByPhone (db : DB) (phoneNumber : String) : Option Operator :=
  db.operators.find? (fun o => o.phone_number == phoneNumber)

end operatorModel

namespace routeModel

/-- models/route.js findById: SELECT * FROM routes WHERE id = ?. -/
def findById (db : DB) (id : Nat) : Option Route :=
  db.routes.find? (fun r => r.id == id)

end routeModel

namespace bookingModel

/-- models/booking.js findById: SELECT * FROM bookings WHERE id = ?. -/
def findById (db : DB) (id : Nat) : Option Booking :=
  db.bookings.find? (fun b => b.id == id)

/-- Argument record of models/booking.js create (after its destructuring
defaults customer_name = null, seat_count = 1, status = pending). -/
structure BookingData where
  customer_name : Option String
  customer_phone : String
  route_id : Nat
  journey_date : Nat
  seat_count : Nat
  status : String
deriving Repr, DecidableEq

/-- models/booking.js create: INSERT INTO bookings ... then findById(lastID).
created_at comes from the DEFAULT CURRENT_TIMESTAMP column, threaded as now. -/
def create (db : DB) (data : BookingData) (now : Nat) : DB × Booking :=
  let b : Booking :=
    { id := db.next_booking_id
      customer_name := data.customer_name
      customer_phone := data.customer_phone
      route_id := data.route_id
      journey_date := data.journey_date
      seat_count := data.seat_count
      status := data.status
      created_at := now }
  ({ db with bookings := db.bookings ++ [b]
             next_booking_id := db.next_booking_id + 1 }, b)

/-- models/booking.js updateStatus: UPDATE bookings SET status = ? WHERE id = ?;
resolves null when this.changes = 0, else findById(id) on the updated table.
The WHERE clause is keyed on id only, not on the prior status. -/
def updateStatus (db : DB) (id : Nat) (status : String) : DB × Option Booking :=
  if db.bookings.any (fun b => b.id == id) then
    let db' : DB :=
      { db with bookings :=
          db.bookings.map (fun b => if b.id == id then { b with status := status } else b) }
    (db', findById db' id)
  else
    (db, none)

/-- Departure DATETIME of a booking: datetime(journey_date plus the
departure_time of its route), as in the SQL of findBookingsNeedingReminders.
None when the route subquery yields NULL (row then excluded by BETWEEN). -/
def departureAt (db : DB) (b : Booking) : Option Nat :=
  (routeModel.findById db b.route_id).map (fun r => b.journey_date * 1440 + r.departure_time)

/-- models/booking.js findBookingsNeedingReminders: confirmed bookings with no
reminder message_log row (LEFT JOIN ... ml.id IS NULL) whose departure is
BETWEEN now AND now + 6 hours (360 minutes), both bounds inclusive.
The SQL orders by journey_date; the order is not used by any caller property. -/
def findBookingsNeedingReminders (db : DB) (now : Nat) : List Booking :=
  db.bookings.filter (fun b =>
    b.status == "confirmed" &&
    !(db.message_logs.any (fun ml => ml.booking_id == some b.id && ml.type == "reminder")) &&
    (match departureAt db b with
     | some t => decide (now ≤ t) && decide (t ≤ now + 360)
     | none => false))

end bookingModel

namespace messageLogModel

/-- models/messageLog.js create: INSERT INTO message_logs, sent_at defaulting
to the current time, then findById(lastID). -/
def create (db : DB) (booking_id : Option Nat) (type : String) (sent_at : Nat) :
    DB × MessageLog :=
  let ml : MessageLog :=
    { id := db.next_log_id, booking_id := booking_id, type := type, sent_at := sent_at }
  ({ db with message_logs := db.message_logs ++ [ml]
             next_log_id := db.next_log_id + 1 }, ml)

end messageLogModel

/-- JS String.prototype.toUpperCase on the ASCII inputs this service
compares against, as a structurally recursive function on the character
list (the builtin String.toUpper does not reduce in the kernel). -/
def jsToUpper (s : String) : String :=
  String.mk (s.toList.map Char.toUpper)

/-- JS String.prototype.trim: drop leading and trailing whitespace. -/
def jsTrim (s : String) : String :=
  String.mk (((s.toList.dropWhile Char.isWhitespace).reverse.dropWhile
    Char.isWhitespace).reverse)

/-- routes/webhook.js normalizePhoneNumber: strips whitespace and the
characters plus, dash and parentheses (the regex character class). -/
def normalizePhoneNumber (phoneNumber : String) : String :=
  String.mk (phoneNumber.toList.filter
    (fun c => !(c == '+' || c == '-' || c == '(' || c == ')' || c.isWhitespace)))

/-- routes/webhook.js getFirstRoute: SELECT * FROM routes ORDER BY id ASC LIMIT 1,
i.e. the route of least id. -/
def getFirstRoute (db : DB) : Option Route :=
  db.routes.foldl
    (fun acc r =>
      match acc with
      | none => some r
      | some a => if r.id < a.id then some r else some a)
    none

/-- Accumulator step realizing ORDER BY created_at DESC LIMIT 1: keep the row
with the larger created_at.  SQLite leaves the order of equal created_at
values unspecified; the model keeps the earlier row on ties. -/
def pickLatestCreated (acc : Option Booking) (b : Booking) : Option Booking :=
  match acc with
  | none => some b
  | some a => if a.created_at < b.created_at then some b else some a

/-- routes/webhook.js getLatestPendingBooking:
SELECT * FROM bookings WHERE status = pending ORDER BY created_at DESC LIMIT 1. -/
def getLatestPendingBooking (db : DB) : Option Booking :=
  (db.bookings.filter (fun b => b.status == "pending")).foldl pickLatestCreated none

/-- Abstract tags for the outbound WhatsApp message templates of
routes/webhook.js and services/reminder.js. -/
inductive MsgTag
  | noRoutesApology
  | newBookingRequest (booking_id : Nat)
  | bookingReceived (booking_id : Nat)
  | bookingErrorApology
  | noPendingToConfirm
  | bookingConfirmed (booking_id : Nat)
  | confirmedOperatorNotice (booking_id : Nat)
  | confirmErrorApology
  | noPendingToReject
  | bookingRejected (booking_id : Nat)
  | rejectedOperatorNotice (booking_id : Nat)
  | rejectErrorApology
  | reminder (booking_id : Nat)
deriving Repr, DecidableEq

/-- A recorded outbound send: recipient phone number (the to argument of
sendMessage) and message template. -/
structure SentMsg where
  recipient : String
  tag : MsgTag
deriving Repr, DecidableEq

/-- Full system state: the database plus the log of outbound sends and a
counter of send attempts (used to index the failure oracle). -/
structure Sys where
  db : DB
  sent : List SentMsg
  sendIdx : Nat
deriving Repr, DecidableEq

/-- Environment of the process: the oracle saying whether the i-th call to
whatsappService.sendMessage throws, and process.env.OPERATOR_PHONE
(defaulting to 1234567890 in the source). -/
structure Ctx where
  sendFail : Nat → Bool
  operatorPhone : String

/-- services/whatsapp.js sendMessage: either delivers (recording the send) or
throws (missing credentials or an API error); a thrown error carries the
state reached so far, as JS exceptions leave prior mutations in place. -/
def sendMessage (ctx : Ctx) (s : Sys) (recipient : String) (tag : MsgTag) : Except Sys Sys :=
  if ctx.sendFail s.sendIdx then
    .error { s with sendIdx := s.sendIdx + 1 }
  else
    .ok { s with sent := s.sent ++ [{ recipient := recipient, tag := tag }]
                 sendIdx := s.sendIdx + 1 }

/-- routes/webhook.js createBooking, body of its try block.  An error value
carries the state at throw time (JS exceptions do not undo prior writes). -/
def createBookingTry (ctx : Ctx) (today now : Nat) (customerPhone : String) (s : Sys) :
    Except Sys Sys :=
  match getFirstRoute s.db with
  | none =>
    -- no routes: apologize to the customer and return
    sendMessage ctx s customerPhone .noRoutesApology
  | some route =>
    -- journey date is tomorrow
    let journeyDate := today + 1
    let created := bookingModel.create s.db
      { customer_name := some "Customer"
        customer_phone := customerPhone
        route_id := route.id
        journey_date := journeyDate
        seat_count := 1
        status := "pending" } now
    let s1 : Sys := { s with db := created.1 }
    let booking := created.2
    match operatorModel.findByPhone s1.db ctx.operatorPhone with
    | none => .ok s1      -- operator missing: logged, booking kept, return
    | some operator =>
      match routeModel.findById s1.db route.id with
      | none => .error s1   -- routeDetails.source on null throws in JS
      | some _routeDetails =>
        match sendMessage ctx s1 operator.phone_number (.newBookingRequest booking.id) with
        | .error s2 => .error s2
        | .ok s2 =>
          let logged := messageLogModel.create s2.db (some booking.id) "notification" now
          let s3 : Sys := { s2 with db := logged.1 }
          sendMessage ctx s3 customerPhone (.bookingReceived booking.id)

/-- routes/webhook.js createBooking with its catch: on any error, try to send
an apology to the customer, swallowing a nested failure. -/
def createBooking (ctx : Ctx) (today now : Nat) (customerPhone : String) (s : Sys) : Sys :=
  match createBookingTry ctx today now customerPhone s with
  | .ok s' => s'
  | .error sErr =>
    match sendMessage ctx sErr customerPhone .bookingErrorApology with
    | .ok s2 => s2
    | .error s2 => s2

/-- routes/webhook.js confirmBooking, body of its try block. -/
def confirmBookingTry (ctx : Ctx) (now : Nat) (operatorPhone : String) (s : Sys) :
    Except Sys Sys :=
  match getLatestPendingBooking s.db with
  | none =>
    sendMessage ctx s operatorPhone .noPendingToConfirm
  | some booking =>
    let upd := bookingModel.updateStatus s.db booking.id "confirmed"
    let s1 : Sys := { s with db := upd.1 }
    match upd.2 with
    | none => .ok s1      -- zero rows changed: logged, return
    | some _updatedBooking =>
      match routeModel.findById s1.db booking.route_id with
      | none => .error s1   -- route.source on null throws in JS
      | some _route =>
        match sendMessage ctx s1 booking.customer_phone (.bookingConfirmed booking.id) with
        | .error s2 => .error s2
        | .ok s2 =>
          let logged := messageLogModel.create s2.db (some booking.id) "confirmation" now
          let s3 : Sys := { s2 with db := logged.1 }
          sendMessage ctx s3 operatorPhone (.confirmedOperatorNotice booking.id)

/-- routes/webhook.js confirmBooking with its catch. -/
def confirmBooking (ctx : Ctx) (now : Nat) (operatorPhone : String) (s : Sys) : Sys :=
  match confirmBookingTry ctx now operatorPhone s with
  | .ok s' => s'
  | .error sErr =>
    match sendMessage ctx sErr operatorPhone .confirmErrorApology with
    | .ok s2 => s2
    | .error s2 => s2

/-- routes/webhook.js rejectBooking, body of its try block. -/
def rejectBookingTry (ctx : Ctx) (now : Nat) (operatorPhone : String) (s : Sys) :
    Except Sys Sys :=
  match getLatestPendingBooking s.db with
  | none =>
    sendMessage ctx s operatorPhone .noPendingToReject
  | some booking =>
    let upd := bookingModel.updateStatus s.db booking.id "rejected"
    let s1 : Sys := { s with db := upd.1 }
    match upd.2 with
    | none => .ok s1
    | some _updatedBooking =>
      match routeModel.findById s1.db booking.route_id with
      | none => .error s1
      | some _route =>
        match sendMessage ctx s1 booking.customer_phone (.bookingRejected booking.id) with
        | .error s2 => .error s2
        | .ok s2 =>
          let logged := messageLogModel.create s2.db (some booking.id) "rejection" now
          let s3 : Sys := { s2 with db := logged.1 }
          sendMessage ctx s3 operatorPhone (.rejectedOperatorNotice booking.id)

/-- routes/webhook.js rejectBooking with its catch. -/
def rejectBooking (ctx : Ctx) (now : Nat) (operatorPhone : String) (s : Sys) : Sys :=
  match rejectBookingTry ctx now operatorPhone s with
  | .ok s' => s'
  | .error sErr =>
    match sendMessage ctx sErr operatorPhone .rejectErrorApology with
    | .ok s2 => s2
    | .error s2 => s2

/-- routes/webhook.js handleOperatorMessage: YES confirms, NO rejects,
anything else is logged and ignored.  messageText arrives already
uppercased and trimmed. -/
def handleOperatorMessage (ctx : Ctx) (now : Nat) (phoneNumber messageText : String)
    (s : Sys) : Sys :=
  if messageText == "YES" then confirmBooking ctx now phoneNumber s
  else if messageText == "NO" then rejectBooking ctx now phoneNumber s
  else s

/-- routes/webhook.js handleCustomerMessage: the single keyword BOOK creates a
booking; anything else is logged and ignored. -/
def handleCustomerMessage (ctx : Ctx) (today now : Nat) (phoneNumber messageText : String)
    (s : Sys) : Sys :=
  if messageText == "BOOK" then createBooking ctx today now phoneNumber s else s

/-- The first inbound message of a webhook event: message.from, message.type,
and message.text.body (empty when absent). -/
structure InMsg where
  sender : String
  mtype : String
  body : String
deriving Repr, DecidableEq

/-- Shape of a POST /whatsapp/webhook body after the structural checks of the
handler: entry[0].changes[0] missing, value.messages[0] missing, or a message. -/
inductive Payload
  | malformed
  | noMessages
  | message (m : InMsg)
deriving Repr, DecidableEq

/-- The transport-level response of the POST handler. -/
inductive HttpResponse
  | ok200 (body : String)
deriving Repr, DecidableEq

/-- The processing part of the POST /whatsapp/webhook handler, after the 200
response is sent: structural checks, the text-only filter, phone
normalization, and dispatch on operator vs customer.  Every throwing
operation below this point sits inside a handler-level catch, so processing
is total. -/
def processPayload (ctx : Ctx) (today now : Nat) (payload : Payload) (s : Sys) : Sys :=
  match payload with
  | .malformed => s        -- invalid webhook payload structure: logged only
  | .noMessages => s       -- no messages in webhook payload: logged only
  | .message m =>
    if m.mtype != "text" then
      s                    -- ignoring non-text message type: logged only
    else
      let normalizedFrom := normalizePhoneNumber m.sender
      let txt := jsTrim (jsToUpper m.body)
      match operatorModel.findByPhone s.db normalizedFrom with
      | some _operator => handleOperatorMessage ctx now normalizedFrom txt s
      | none => handleCustomerMessage ctx today now normalizedFrom txt s

/-- POST /whatsapp/webhook: res.status(200).send(OK) is executed first, then
the payload is processed; the surrounding catch logs and swallows any error,
never touching the already-sent response. -/
def webhookPost (ctx : Ctx) (today now : Nat) (payload : Payload) (s : Sys) :
    HttpResponse × Sys :=
  (HttpResponse.ok200 "OK", processPayload ctx today now payload s)

/-- Response of GET /whatsapp/webhook. -/
inductive VerifyResponse
  | ok200 (body : Option String)
  | forbidden403
  | badRequest400
deriving Repr, DecidableEq

/-- JS truthiness of a query-string value: present and non-empty. -/
def truthyParam : Option String → Bool
  | some s => s != ""
  | none => false

/-- GET /whatsapp/webhook: echo hub.challenge with 200 when hub.mode is
subscribe and hub.verify_token matches WEBHOOK_VERIFY_TOKEN; 403 when both
parameters are present but the pair is wrong; 400 when either is missing. -/
def webhookVerify (verifyToken : Option String)
    (mode token challenge : Option String) : VerifyResponse :=
  if truthyParam mode && truthyParam token then
    if mode == some "subscribe" && token == verifyToken then
      .ok200 challenge
    else
      .forbidden403
  else
    .badRequest400

namespace reminderService

/-- Loop body of services/reminder.js sendReminders: look up the route
(skipping the booking when missing), send the reminder, and on success write
the reminder message_log row; a thrown send is caught and the loop continues. -/
def step (ctx : Ctx) (now : Nat) (s : Sys) (b : Booking) : Sys :=
  match routeModel.findById s.db b.route_id with
  | none => s             -- route not found: logged, continue
  | some _route =>
    match sendMessage ctx s b.customer_phone (.reminder b.id) with
    | .error s1 => s1     -- failed to send reminder: logged, continue
    | .ok s1 =>
      let logged := messageLogModel.create s1.db (some b.id) "reminder" now
      { s1 with db := logged.1 }

/-- services/reminder.js sendReminders: select the bookings needing reminders,
then process each (the early return on an empty selection equals folding
over the empty list). -/
def sendReminders (ctx : Ctx) (now : Nat) (s : Sys) : Sys :=
  (bookingModel.findBookingsNeedingReminders s.db now).foldl (step ctx now) s

end reminderService

/-! ## Hold expiration sweep, modelled from the spec

The README lists services/holdExpiration.js (hold expiration logic, run by a
cron job every 5 minutes) among the implemented files, but that file is not
present in the source tree: server.js schedules only the reminder job, and the
bookings schema of database.js has neither a hold status nor a hold_expires_at
column.  The sweep and the booking fields it needs are modelled from the spec. -/

/-- Modelled from the spec: the booking fields used by the missing
services/holdExpiration.js — seat_count, status, and the nullable
hold_expires_at column of the spec data model (section 3). -/
structure HeldBooking where
  id : Nat
  seat_count : Nat
  status : String
  hold_expires_at : Option Nat
deriving Repr, DecidableEq

/-- Modelled from the spec: the selection condition of the sweep
(section 4.5): status hold and hold_expires_at <= now. -/
def holdDue (now : Nat) (b : HeldBooking) : Bool :=
  b.status == "hold" &&
    (match b.hold_expires_at with
     | some t => decide (t ≤ now)
     | none => false)

/-- Modelled from the spec: the conditional update applied to one row
(sections 4.5 and 5): set status expired only if the row still has status
hold and is due; any other row is left untouched. -/
def expireStep (now : Nat) (b : HeldBooking) : HeldBooking :=
  if holdDue now b then { b with status := "expired" } else b

/-- Modelled from the spec: the whole sweep of the missing
services/holdExpiration.js (section 4.5) — apply the guarded transition to
every stale hold. -/
def expireHolds (now : Nat) (bs : List HeldBooking) : List HeldBooking :=
  bs.map (expireStep now)

/-! ## Derived observations used by the claims -/

/-- The state a try block reaches, whether it returned or threw (the catch
handlers observe exactly this state). -/
def exOut : Except Sys Sys → Sys
  | .ok s => s
  | .error s => s

/-- Well-formedness the SQLite schema guarantees: booking ids are unique
(INTEGER PRIMARY KEY) and below the AUTOINCREMENT counter. -/
def wfDB (db : DB) : Prop :=
  (db.bookings.map Booking.id).Nodup ∧ ∀ b ∈ db.bookings, b.id < db.next_booking_id

/-- The statuses of the booking rows having a given id. -/
def statusesAt (db : DB) (j : Nat) : List String :=
  (db.bookings.filter (fun b => b.id == j)).map Booking.status

/-- Total seat_count of the bookings of a route whose status lies in the given
set (the seat accounting the spec prescribes, evaluated on the code state). -/
def seatSum (db : DB) (rid : Nat) (statuses : List String) : Nat :=
  ((db.bookings.filter (fun b => b.route_id == rid && statuses.contains b.status)).map
    Booking.seat_count).sum

/-- Whether a reminder message_log row exists for a booking id (the
de-duplication condition of the reminder selection). -/
def hasReminderLog (db : DB) (bid : Nat) : Bool :=
  db.message_logs.any (fun ml => ml.booking_id == some bid && ml.type == "reminder")

/-- Number of reminder sends recorded for a booking id. -/
def reminderSendCount (sent : List SentMsg) (bid : Nat) : Nat :=
  (sent.filter (fun m => m.tag == MsgTag.reminder bid)).length

/-! ## Concrete sample states -/

/-- Environment in which every outbound send succeeds and OPERATOR_PHONE has
its source default. -/
def okCtx : Ctx :=
  { sendFail := fun _ => false, operatorPhone := "1234567890" }

/-- The seeded default operator of database.js. -/
def seedOperator : Operator :=
  { id := 1, name := "Default Operator", phone_number := "1234567890", approved := true }

/-- The seeded default route of database.js (departure 08:00 = 480 minutes). -/
def seedRoute : Route :=
  { id := 1, operator_id := 1, source := "City A", destination := "City B"
    departure_time := 480, price := 500 }

/-- A confirmed one-seat booking on the seeded route, used to build states. -/
def confirmedBooking (i : Nat) : Booking :=
  { id := i, customer_name := some "Customer", customer_phone := "9990001111"
    route_id := 1, journey_date := 10, seat_count := 1, status := "confirmed"
    created_at := i }

/-- State of the spec scenario: the only trip-like capacity mentioned anywhere
is a quota of 5, and 5 seats are already confirmed on the seeded route. -/
def c1sys : Sys :=
  { db := { operators := [seedOperator], routes := [seedRoute]
            bookings := [confirmedBooking 1, confirmedBooking 2, confirmedBooking 3,
                         confirmedBooking 4, confirmedBooking 5]
            message_logs := [], next_booking_id := 6, next_log_id := 1 }
    sent := [], sendIdx := 0 }

/-- A database holding a single booking already in the terminal status
confirmed. -/
def c2db : DB :=
  { operators := [seedOperator], routes := [seedRoute]
    bookings := [confirmedBooking 1]
    message_logs := [], next_booking_id := 2, next_log_id := 1 }

/-- A single pending booking awaiting the operator. -/
def pendingBooking1 : Booking :=
  { id := 1, customer_name := some "Customer", customer_phone := "9990001111"
    route_id := 1, journey_date := 10, seat_count := 1, status := "pending"
    created_at := 5 }

/-- State with one pending booking awaiting the operator. -/
def pendingSys : Sys :=
  { db := { operators := [seedOperator], routes := [seedRoute]
            bookings := [pendingBooking1]
            message_logs := [], next_booking_id := 2, next_log_id := 1 }
    sent := [], sendIdx := 0 }

/-- A confirmed booking departing on day 0 (at the seeded 08:00 departure). -/
def c7booking : Booking :=
  { id := 1, customer_name := some "Customer", customer_phone := "9990001111"
    route_id := 1, journey_date := 0, seat_count := 1, status := "confirmed"
    created_at := 0 }

/-- State with one confirmed booking eligible for a reminder at time 200. -/
def c7sys : Sys :=
  { db := { operators := [seedOperator], routes := [seedRoute]
            bookings := [c7booking]
            message_logs := [], next_booking_id := 2, next_log_id := 1 }
    sent := [], sendIdx := 0 }

/-- The customer keyword message. -/
def bookMsg : InMsg :=
  { sender := "9990001111", mtype := "text", body := "BOOK" }

/-- The labeled key:value shape of the documented parser. -/
def labeledFormMsg : InMsg :=
  { sender := "9990001111", mtype := "text"
    body := "Route: City A to City B, Date: 2024-01-15, Time: 08:00, Seats: 2" }

/-- The comma-separated positional shape of the documented parser. -/
def commaFormMsg : InMsg :=
  { sender := "9990001111", mtype := "text"
    body := "City A to City B, 2024-01-15, 08:00, 2 seats" }

/-- The space-separated command shape of the documented parser. -/
def commandFormMsg : InMsg :=
  { sender := "9990001111", mtype := "text"
    body := "BOOK City A City B 2024-01-15 08:00 2" }

/-- A labeled-shape intent missing its date field. -/
def missingDateMsg : InMsg :=
  { sender := "9990001111", mtype := "text"
    body := "Route: City A to City B, Time: 08:00, Seats: 2" }

/-- An image attachment from the operator phone number. -/
def operatorImageMsg : InMsg :=
  { sender := "1234567890", mtype := "image", body := "" }

/-- A document attachment from the operator phone number. -/
def operatorDocumentMsg : InMsg :=
  { sender := "1234567890", mtype := "document", body := "" }

/-- The operator YES keyword. -/
def operatorYesMsg : InMsg :=
  { sender := "1234567890", mtype := "text", body := "YES" }

/-- The operator NO keyword (lowercase: the handler uppercases and trims). -/
def operatorNoMsg : InMsg :=
  { sender := "1234567890", mtype := "text", body := "no" }

/-- A hold due for expiration at time 10 (spec-modelled sweep input). -/
def dueHold : HeldBooking :=
  { id := 1, seat_count := 2, status := "hold", hold_expires_at := some 5 }

/-- A confirmed row the sweep must not touch (spec-modelled sweep input). -/
def confirmedHold : HeldBooking :=
  { id := 2, seat_count := 1, status := "confirmed", hold_expires_at := none }

/-! ## Theorems -/

/-! ### Helper lemmas about the embedded operations -/

theorem sendMessage_ok {ctx : Ctx} {s : Sys} {r : String} {tag : MsgTag} {s' : Sys}
    (h : sendMessage ctx s r tag = Except.ok s') :
    s'.db = s.db ∧ s'.sent = s.sent ++ [{ recipient := r, tag := tag }] := by
  unfold sendMessage at h
  split at h
  · exact Except.noConfusion h
  · cases h
    exact ⟨rfl, rfl⟩

theorem sendMessage_error {ctx : Ctx} {s : Sys} {r : String} {tag : MsgTag} {s' : Sys}
    (h : sendMessage ctx s r tag = Except.error s') :
    s'.db = s.db ∧ s'.sent = s.sent := by
  unfold sendMessage at h
  split at h
  · cases h
    exact ⟨rfl, rfl⟩
  · exact Except.noConfusion h

/-- The catch blocks only attempt one more send: the database is untouched. -/
theorem catchSend_db (ctx : Ctx) (s : Sys) (r : String) (tag : MsgTag) :
    (match sendMessage ctx s r tag with
     | .ok s2 => s2
     | .error s2 => s2).db = s.db := by
  cases h : sendMessage ctx s r tag with
  | ok s2 => exact (sendMessage_ok h).1
  | error s2 => exact (sendMessage_error h).1

theorem pickLatestCreated_spec (acc : Option Booking) (b : Booking) :
    ∃ a', pickLatestCreated acc b = some a' ∧ b.created_at ≤ a'.created_at ∧
      (∀ a, acc = some a → a.created_at ≤ a'.created_at) ∧
      (a' = b ∨ acc = some a') := by
  cases acc with
  | none =>
    refine ⟨b, rfl, le_rfl, ?_, Or.inl rfl⟩
    intro a ha
    cases ha
  | some a =>
    by_cases hlt : a.created_at < b.created_at
    · refine ⟨b, ?_, le_rfl, ?_, Or.inl rfl⟩
      · simp [pickLatestCreated, hlt]
      · intro x hx
        cases hx
        exact le_of_lt hlt
    · refine ⟨a, ?_, le_of_not_lt hlt, ?_, Or.inr rfl⟩
      · simp [pickLatestCreated, hlt]
      · intro x hx
        cases hx
        exact le_rfl

theorem foldl_pickLatestCreated_spec (l : List Booking) :
    ∀ (acc : Option Booking) (p : Booking), l.foldl pickLatestCreated acc = some p →
      ((acc = some p ∨ p ∈ l) ∧ (∀ x ∈ l, x.created_at ≤ p.created_at) ∧
        (∀ a, acc = some a → a.created_at ≤ p.created_at)) := by
  induction l with
  | nil =>
    intro acc p h
    refine ⟨Or.inl h, ?_, ?_⟩
    · intro x hx
      cases hx
    · intro a ha
      rw [ha] at h
      cases h
      exact le_rfl
  | cons b tl ih =>
    intro acc p h
    rw [List.foldl_cons] at h
    obtain ⟨mem, hmax, hacc⟩ := ih (pickLatestCreated acc b) p h
    obtain ⟨a', ha', hba', haa', hcase⟩ := pickLatestCreated_spec acc b
    have ha'p : a'.created_at ≤ p.created_at := hacc a' ha'
    refine ⟨?_, ?_, ?_⟩
    · rcases mem with hm | hm
      · have hap : a' = p := by
          rw [ha'] at hm
          exact Option.some.inj hm
        subst hap
        rcases hcase with hc | hc
        · rw [hc]
          exact Or.inr (List.mem_cons_self _ _)
        · exact Or.inl hc
      · exact Or.inr (List.mem_cons_of_mem _ hm)
    · intro x hx
      rcases List.mem_cons.mp hx with hx' | hx'
      · rw [hx']
        exact le_trans hba' ha'p
      · exact hmax x hx'
    · intro a ha
      exact le_trans (haa' a ha) ha'p

/-- The row picked by getLatestPendingBooking is a pending booking of the
store with maximal created_at among the pending rows. -/
theorem getLatestPendingBooking_spec {db : DB} {p : Booking}
    (h : getLatestPendingBooking db = some p) :
    p ∈ db.bookings ∧ p.status = "pending" ∧
      ∀ b ∈ db.bookings, b.status = "pending" → b.created_at ≤ p.created_at := by
  unfold getLatestPendingBooking at h
  obtain ⟨mem, hmax, _⟩ := foldl_pickLatestCreated_spec _ none p h
  have hpf : p ∈ db.bookings.filter (fun b => b.status == "pending") := by
    rcases mem with hm | hm
    · cases hm
    · exact hm
  have hmf := List.mem_filter.mp hpf
  refine ⟨hmf.1, by simpa using hmf.2, ?_⟩
  intro b hb hbs
  exact hmax b (List.mem_filter.mpr ⟨hb, by simp [hbs]⟩)

theorem nodup_id_inj {l : List Booking} (h : (l.map Booking.id).Nodup)
    {x y : Booking} (hx : x ∈ l) (hy : y ∈ l) (hxy : x.id = y.id) : x = y :=
  List.inj_on_of_nodup_map h hx hy hxy

theorem filter_byId_length_le_one {l : List Booking}
    (h : (l.map Booking.id).Nodup) (bid : Nat) :
    (l.filter (fun b => b.id == bid)).length ≤ 1 := by
  induction l with
  | nil => simp
  | cons b tl ih =>
    rw [List.map_cons, List.nodup_cons] at h
    by_cases hb : b.id = bid
    · have htl : tl.filter (fun b => b.id == bid) = [] := by
        rw [List.filter_eq_nil_iff]
        intro x hx
        simp only [beq_iff_eq]
        intro hxid
        have hbx : b.id = x.id := by rw [hb, hxid]
        exact h.1 (hbx ▸ List.mem_map_of_mem Booking.id hx)
      simp [List.filter_cons, hb, htl]
    · simp only [List.filter_cons, beq_iff_eq, hb, if_false]
      exact ih h.2

/-- Mapping a function that fixes every selected element and never changes
selection status commutes away under filter. -/
theorem filter_map_invariant {α : Type} (f : α → α) (p : α → Bool)
    (hp : ∀ x, p (f x) = p x) (hfix : ∀ x, p x = true → f x = x) (l : List α) :
    (l.map f).filter p = l.filter p := by
  induction l with
  | nil => rfl
  | cons b tl ih =>
    rw [List.map_cons, List.filter_cons, List.filter_cons, hp b]
    cases hpb : p b with
    | false => simpa using ih
    | true =>
      rw [hfix b hpb]
      simpa using ih

theorem filter_byId_map_setStatus (l : List Booking) (i j : Nat) (st : String)
    (hij : i ≠ j) :
    (l.map (fun b => if b.id == i then { b with status := st } else b)).filter
      (fun b => b.id == j) = l.filter (fun b => b.id == j) := by
  apply filter_map_invariant
  · intro x
    by_cases h : x.id = i <;> simp [h]
  · intro x hx
    rw [beq_iff_eq] at hx
    have hxi : ¬ (x.id = i) := by
      rw [hx]
      intro h
      exact hij h.symm
    simp [hxi]

theorem statusesAt_updateStatus {db : DB} {i : Nat} {st : String} {j : Nat}
    (hij : i ≠ j) :
    statusesAt (bookingModel.updateStatus db i st).1 j = statusesAt db j := by
  unfold bookingModel.updateStatus
  split
  · unfold statusesAt
    simp only
    rw [filter_byId_map_setStatus db.bookings i j st hij]
  · rfl

theorem statusesAt_append {db : DB} {l : List Booking} {j : Nat}
    (h : ∀ b ∈ l, b.id ≠ j) :
    statusesAt { db with bookings := db.bookings ++ l } j = statusesAt db j := by
  unfold statusesAt
  simp only
  rw [List.filter_append]
  have hnil : l.filter (fun b => b.id == j) = [] := by
    rw [List.filter_eq_nil_iff]
    intro b hb
    simp [h b hb]
  rw [hnil, List.append_nil]

theorem messageLog_create_bookings (db : DB) (bid : Option Nat) (ty : String) (t : Nat) :
    ((messageLogModel.create db bid ty t).1).bookings = db.bookings := rfl

theorem updateStatus_fst_routes (db : DB) (i : Nat) (st : String) :
    ((bookingModel.updateStatus db i st).1).routes = db.routes := by
  unfold bookingModel.updateStatus
  split <;> rfl

theorem updateStatus_bookings_cases (db : DB) (i : Nat) (st : String) :
    ((bookingModel.updateStatus db i st).1).bookings = db.bookings
  ∨ ((bookingModel.updateStatus db i st).1).bookings =
      db.bookings.map (fun b => if b.id == i then { b with status := st } else b) := by
  unfold bookingModel.updateStatus
  split
  · exact Or.inr rfl
  · exact Or.inl rfl

/-- Whatever branch the booking-creation try block takes, the booking table is
either untouched or extended by exactly one new row carrying the fresh id. -/
theorem createBookingTry_bookings (ctx : Ctx) (today now : Nat) (phone : String) (s : Sys) :
    (exOut (createBookingTry ctx today now phone s)).db.bookings = s.db.bookings
  ∨ ∃ nb : Booking, nb.id = s.db.next_booking_id ∧
      (exOut (createBookingTry ctx today now phone s)).db.bookings =
        s.db.bookings ++ [nb] := by
  unfold createBookingTry
  split
  · left
    cases hsm : sendMessage ctx s phone .noRoutesApology with
    | ok s2 => simp [exOut, (sendMessage_ok hsm).1]
    | error s2 => simp [exOut, (sendMessage_error hsm).1]
  · rename_i route heq
    lift_lets
    intro jd created s1 booking
    right
    refine ⟨booking, rfl, ?_⟩
    split
    · rfl
    · split
      · rfl
      · split
        · rename_i s2 hsm
          simp only [exOut]
          rw [(sendMessage_error hsm).1]
          rfl
        · rename_i s2 hsm
          lift_lets
          intro logged s3
          cases hsm2 : sendMessage ctx s3 phone (.bookingReceived booking.id) with
          | ok s4 =>
            simp only [exOut]
            rw [(sendMessage_ok hsm2).1]
            show s2.db.bookings = s.db.bookings ++ [booking]
            rw [(sendMessage_ok hsm).1]
            rfl
          | error s4 =>
            simp only [exOut]
            rw [(sendMessage_error hsm2).1]
            show s2.db.bookings = s.db.bookings ++ [booking]
            rw [(sendMessage_ok hsm).1]
            rfl

/-- The catch of createBooking only attempts one more send. -/
theorem createBooking_db_eq (ctx : Ctx) (today now : Nat) (phone : String) (s : Sys) :
    (createBooking ctx today now phone s).db =
      (exOut (createBookingTry ctx today now phone s)).db := by
  unfold createBooking
  cases hT : createBookingTry ctx today now phone s with
  | ok s' => rfl
  | error sErr => exact catchSend_db ctx sErr phone .bookingErrorApology

/-- Whatever branch the confirmation try block takes, the booking table is
either untouched or rewritten by the single status update at the id of the
selected pending booking. -/
theorem confirmBookingTry_bookings (ctx : Ctx) (now : Nat) (opPhone : String) (s : Sys) :
    (exOut (confirmBookingTry ctx now opPhone s)).db.bookings = s.db.bookings
  ∨ ∃ p : Booking, p ∈ s.db.bookings ∧ p.status = "pending" ∧
      (exOut (confirmBookingTry ctx now opPhone s)).db.bookings =
        s.db.bookings.map
          (fun b => if b.id == p.id then { b with status := "confirmed" } else b) := by
  unfold confirmBookingTry
  split
  · left
    cases hsm : sendMessage ctx s opPhone .noPendingToConfirm with
    | ok s2 => simp [exOut, (sendMessage_ok hsm).1]
    | error s2 => simp [exOut, (sendMessage_error hsm).1]
  · rename_i p hp
    lift_lets
    intro upd s1
    obtain ⟨hmem, hpend, _⟩ := getLatestPendingBooking_spec hp
    have hgoal : ∀ bl : List Booking, bl = upd.1.bookings →
        (bl = s.db.bookings ∨ ∃ q : Booking, q ∈ s.db.bookings ∧ q.status = "pending" ∧
          bl = s.db.bookings.map
            (fun b => if b.id == q.id then { b with status := "confirmed" } else b)) := by
      intro bl hbl
      rcases updateStatus_bookings_cases s.db p.id "confirmed" with hu | hu
      · left
        rw [hbl]
        exact hu
      · right
        refine ⟨p, hmem, hpend, ?_⟩
        rw [hbl]
        exact hu
    split
    · exact hgoal _ rfl
    · split
      · exact hgoal _ rfl
      · split
        · rename_i s2 hsm
          exact hgoal _ (by
            simp only [exOut]
            rw [(sendMessage_error hsm).1])
        · rename_i s2 hsm
          lift_lets
          intro logged s3
          cases hsm2 : sendMessage ctx s3 opPhone (.confirmedOperatorNotice p.id) with
          | ok s4 =>
            exact hgoal _ (by
              simp only [exOut]
              rw [(sendMessage_ok hsm2).1]
              show s2.db.bookings = upd.1.bookings
              rw [(sendMessage_ok hsm).1])
          | error s4 =>
            exact hgoal _ (by
              simp only [exOut]
              rw [(sendMessage_error hsm2).1]
              show s2.db.bookings = upd.1.bookings
              rw [(sendMessage_ok hsm).1])

/-- The catch of confirmBooking only attempts one more send. -/
theorem confirmBooking_db_eq (ctx : Ctx) (now : Nat) (opPhone : String) (s : Sys) :
    (confirmBooking ctx now opPhone s).db =
      (exOut (confirmBookingTry ctx now opPhone s)).db := by
  unfold confirmBooking
  cases hT : confirmBookingTry ctx now opPhone s with
  | ok s' => rfl
  | error sErr => exact catchSend_db ctx sErr opPhone .confirmErrorApology

/-- Whatever branch the rejection try block takes, the booking table is either
untouched or rewritten by the single status update at the id of the selected
pending booking. -/
theorem rejectBookingTry_bookings (ctx : Ctx) (now : Nat) (opPhone : String) (s : Sys) :
    (exOut (rejectBookingTry ctx now opPhone s)).db.bookings = s.db.bookings
  ∨ ∃ p : Booking, p ∈ s.db.bookings ∧ p.status = "pending" ∧
      (exOut (rejectBookingTry ctx now opPhone s)).db.bookings =
        s.db.bookings.map
          (fun b => if b.id == p.id then { b with status := "rejected" } else b) := by
  unfold rejectBookingTry
  split
  · left
    cases hsm : sendMessage ctx s opPhone .noPendingToReject with
    | ok s2 => simp [exOut, (sendMessage_ok hsm).1]
    | error s2 => simp [exOut, (sendMessage_error hsm).1]
  · rename_i p hp
    lift_lets
    intro upd s1
    obtain ⟨hmem, hpend, _⟩ := getLatestPendingBooking_spec hp
    have hgoal : ∀ bl : List Booking, bl = upd.1.bookings →
        (bl = s.db.bookings ∨ ∃ q : Booking, q ∈ s.db.bookings ∧ q.status = "pending" ∧
          bl = s.db.bookings.map
            (fun b => if b.id == q.id then { b with status := "rejected" } else b)) := by
      intro bl hbl
      rcases updateStatus_bookings_cases s.db p.id "rejected" with hu | hu
      · left
        rw [hbl]
        exact hu
      · right
        refine ⟨p, hmem, hpend, ?_⟩
        rw [hbl]
        exact hu
    split
    · exact hgoal _ rfl
    · split
      · exact hgoal _ rfl
      · split
        · rename_i s2 hsm
          exact hgoal _ (by
            simp only [exOut]
            rw [(sendMessage_error hsm).1])
        · rename_i s2 hsm
          lift_lets
          intro logged s3
          cases hsm2 : sendMessage ctx s3 opPhone (.rejectedOperatorNotice p.id) with
          | ok s4 =>
            exact hgoal _ (by
              simp only [exOut]
              rw [(sendMessage_ok hsm2).1]
              show s2.db.bookings = upd.1.bookings
              rw [(sendMessage_ok hsm).1])
          | error s4 =>
            exact hgoal _ (by
              simp only [exOut]
              rw [(sendMessage_error hsm2).1]
              show s2.db.bookings = upd.1.bookings
              rw [(sendMessage_ok hsm).1])

/-- The catch of rejectBooking only attempts one more send. -/
theorem rejectBooking_db_eq (ctx : Ctx) (now : Nat) (opPhone : String) (s : Sys) :
    (rejectBooking ctx now opPhone s).db =
      (exOut (rejectBookingTry ctx now opPhone s)).db := by
  unfold rejectBooking
  cases hT : rejectBookingTry ctx now opPhone s with
  | ok s' => rfl
  | error sErr => exact catchSend_db ctx sErr opPhone .rejectErrorApology

/-- Every webhook processing outcome changes the booking table in one of three
ways only: not at all, by appending one fresh-id row, or by a status
update keyed at the id of a pending row. -/
theorem processPayload_bookings (ctx : Ctx) (today now : Nat) (payload : Payload)
    (s : Sys) :
    (processPayload ctx today now payload s).db.bookings = s.db.bookings
  ∨ (∃ nb : Booking, nb.id = s.db.next_booking_id ∧
       (processPayload ctx today now payload s).db.bookings = s.db.bookings ++ [nb])
  ∨ (∃ (p : Booking) (st : String), p ∈ s.db.bookings ∧ p.status = "pending" ∧
       (processPayload ctx today now payload s).db.bookings =
         s.db.bookings.map
           (fun b => if b.id == p.id then { b with status := st } else b)) := by
  unfold processPayload
  split
  · exact Or.inl rfl
  · exact Or.inl rfl
  · rename_i m
    split
    · exact Or.inl rfl
    · lift_lets
      intro normalizedFrom txt
      split
      · -- operator branch
        unfold handleOperatorMessage
        split
        · -- YES
          rw [confirmBooking_db_eq]
          rcases confirmBookingTry_bookings ctx now normalizedFrom s with
            h | ⟨p, h1, h2, h3⟩
          · exact Or.inl h
          · exact Or.inr (Or.inr ⟨p, "confirmed", h1, h2, h3⟩)
        · split
          · -- NO
            rw [rejectBooking_db_eq]
            rcases rejectBookingTry_bookings ctx now normalizedFrom s with
              h | ⟨p, h1, h2, h3⟩
            · exact Or.inl h
            · exact Or.inr (Or.inr ⟨p, "rejected", h1, h2, h3⟩)
          · exact Or.inl rfl
      · -- customer branch
        unfold handleCustomerMessage
        split
        · rw [createBooking_db_eq]
          rcases createBookingTry_bookings ctx today now normalizedFrom s with
            h | ⟨nb, h1, h2⟩
          · exact Or.inl h
          · exact Or.inr (Or.inl ⟨nb, h1, h2⟩)
        · exact Or.inl rfl

/-- C2 (amended): the statuses the code uses are pending, confirmed and
rejected, with pending the only non-terminal one; the webhook operations
select only the latest pending booking before writing, so a booking already
confirmed or rejected keeps its status across any webhook delivery — even
though updateStatus itself is keyed on id only and would overwrite a terminal
status when invoked directly. -/
theorem C2_terminal_status_never_changed (ctx : Ctx) (today now : Nat)
    (payload : Payload) (s : Sys) (hwf : wfDB s.db) (bk : Booking)
    (hbk : bk ∈ s.db.bookings)
    (hterm : bk.status = "confirmed" ∨ bk.status = "rejected") :
    ∀ row ∈ (webhookPost ctx today now payload s).2.db.bookings,
      row.id = bk.id → row.status = bk.status := by
  intro row hrow hid
  have hP : (webhookPost ctx today now payload s).2 = processPayload ctx today now payload s :=
    rfl
  rw [hP] at hrow
  rcases processPayload_bookings ctx today now payload s with
    hc | ⟨nb, hnb, hc⟩ | ⟨p, st, hpmem, hppend, hc⟩
  · rw [hc] at hrow
    rw [nodup_id_inj hwf.1 hrow hbk hid]
  · rw [hc] at hrow
    rcases List.mem_append.mp hrow with hr | hr
    · rw [nodup_id_inj hwf.1 hr hbk hid]
    · exfalso
      have hrnb : row = nb := List.mem_singleton.mp hr
      have hlt := hwf.2 bk hbk
      rw [← hid, hrnb, hnb] at hlt
      exact lt_irrefl _ hlt
  · rw [hc] at hrow
    obtain ⟨b, hb, hfb⟩ := List.mem_map.mp hrow
    by_cases hbi : b.id = p.id
    · exfalso
      have hrow_id : row.id = b.id := by
        rw [← hfb]
        simp [hbi]
      have hpbk : p = bk := nodup_id_inj hwf.1 hpmem hbk (by rw [← hbi, ← hrow_id, hid])
      rcases hterm with h | h <;>
        · rw [← hpbk, hppend] at h
          exact absurd h (by decide)
    · have hrb : row = b := by
        rw [← hfb]
        simp [hbi]
      rw [hrb] at hid ⊢
      rw [nodup_id_inj hwf.1 hb hbk hid]

/-- C2 witness: in the five-confirmed-bookings state an operator YES delivery
leaves the first confirmed row confirmed. -/
theorem C2_terminal_status_never_changed_witness :
    ((webhookPost okCtx 0 100 (Payload.message operatorYesMsg)
        c1sys).2.db.bookings[0]!).status = "confirmed" := by
  have h := C2_terminal_status_never_changed okCtx 0 100 (Payload.message operatorYesMsg)
    c1sys ⟨by decide, by decide⟩ (confirmedBooking 1) (by decide) (Or.inl rfl)
  exact h _ (by decide) (by decide)

/-- C8: every inbound webhook event delivery is answered with transport-level
success (200 OK); the response is computed before any processing, the failure
oracle of the outbound channel is arbitrary, and every error raised during
processing is caught inside the handlers, so no processing outcome alters the
response. -/
theorem C8_webhook_always_acknowledges (ctx : Ctx) (today now : Nat)
    (payload : Payload) (s : Sys) :
    (webhookPost ctx today now payload s).1 = HttpResponse.ok200 "OK" := rfl

/-- C9: the verification handshake echoes the challenge with success exactly
when the mode is subscribe and the token equals the configured secret; a
present-but-wrong mode/token pair yields forbidden, and a missing mode or
token yields bad-request. -/
theorem C9_verification_handshake (secret m t c : String)
    (hm : m ≠ "") (ht : t ≠ "") :
    (webhookVerify (some secret) (some m) (some t) (some c) =
        VerifyResponse.ok200 (some c) ↔ (m = "subscribe" ∧ t = secret))
  ∧ (¬ (m = "subscribe" ∧ t = secret) →
        webhookVerify (some secret) (some m) (some t) (some c) =
          VerifyResponse.forbidden403)
  ∧ (∀ tok ch, webhookVerify (some secret) none tok ch = VerifyResponse.badRequest400)
  ∧ (∀ mo ch, webhookVerify (some secret) mo none ch = VerifyResponse.badRequest400) := by
  refine ⟨?_, ?_, ?_, ?_⟩
  · constructor
    · intro h
      by_cases hms : m = "subscribe"
      · by_cases hts : t = secret
        · exact ⟨hms, hts⟩
        · simp [webhookVerify, truthyParam, hm, ht, hms, hts] at h
      · simp [webhookVerify, truthyParam, hm, ht, hms] at h
    · rintro ⟨hms, hts⟩
      have hsec : secret ≠ "" := hts ▸ ht
      simp [webhookVerify, truthyParam, hm, ht, hms, hts, hsec]
  · intro hno
    by_cases hms : m = "subscribe"
    · by_cases hts : t = secret
      · exact absurd ⟨hms, hts⟩ hno
      · simp [webhookVerify, truthyParam, hm, ht, hms, hts]
    · simp [webhookVerify, truthyParam, hm, ht, hms]
  · intro tok ch
    simp [webhookVerify, truthyParam]
  · intro mo ch
    cases mo <;> simp [webhookVerify, truthyParam]

/-- C9 witness: a correct subscribe request with the configured secret is
echoed back. -/
theorem C9_verification_handshake_witness :
    webhookVerify (some "tok") (some "subscribe") (some "tok") (some "ch123") =
      VerifyResponse.ok200 (some "ch123") :=
  (C9_verification_handshake "tok" "subscribe" "tok" "ch123"
    (by decide) (by decide)).1.mpr ⟨rfl, rfl⟩

/-- C1 (evaluating the code at the failing input): the seeded route already
carries 5 confirmed seats — the quota of the spec scenario — yet a BOOK
message still inserts a sixth booking, so confirmed-plus-held seats exceed
any fixed quota; the booking-creation path performs no availability check
before inserting. -/
theorem C1_insert_without_availability_check :
    seatSum c1sys.db 1 ["confirmed"] = 5
  ∧ (webhookPost okCtx 0 100 (Payload.message bookMsg) c1sys).2.db.bookings.length = 6
  ∧ seatSum (webhookPost okCtx 0 100 (Payload.message bookMsg) c1sys).2.db 1
      ["confirmed", "pending"] = 6 := by decide

/-- C3 (evaluating the code at the failing input): at zero availability the
request still succeeds, the inserted booking has status pending — not HOLD,
and the bookings schema has no hold_expires_at column at all — and the only
outbound messages are the two success notifications; no
insufficient-availability condition exists anywhere in the code. -/
theorem C3_no_hold_no_availability_failure :
    ((bookingModel.findById
        (webhookPost okCtx 0 100 (Payload.message bookMsg) c1sys).2.db 6).map
        Booking.status = some "pending")
  ∧ ("pending" ≠ "hold" ∧ "pending" ≠ "HOLD")
  ∧ (webhookPost okCtx 0 100 (Payload.message bookMsg) c1sys).2.sent =
      [{ recipient := "1234567890", tag := MsgTag.newBookingRequest 6 },
       { recipient := "9990001111", tag := MsgTag.bookingReceived 6 }] := by decide

/-- C4 (evaluating the code at the failing input): an image or document from
the operator phone number is dropped by the text-only filter — no
confirmation, no state change, nothing sent — while the operator text YES is
what confirms the latest pending booking, via an update keyed on id only. -/
theorem C4_media_dropped_text_confirms :
    (webhookPost okCtx 0 100 (Payload.message operatorImageMsg) pendingSys).2 = pendingSys
  ∧ (webhookPost okCtx 0 100 (Payload.message operatorDocumentMsg) pendingSys).2 =
      pendingSys
  ∧ ((webhookPost okCtx 0 100 (Payload.message operatorYesMsg) pendingSys).2.db.bookings.map
      Booking.status = ["confirmed"]) := by decide

/-- C5 (evaluating the code at the failing input): the three textual shapes
documented for a booking intent are all treated as unrecognized and silently
dropped — no intent, no booking, and no field-specific failure message (a
string missing the date field gets no reply either); the only accepted
customer input is the exact keyword BOOK. -/
theorem C5_parser_shapes_dropped :
    (webhookPost okCtx 0 100 (Payload.message labeledFormMsg) pendingSys).2 = pendingSys
  ∧ (webhookPost okCtx 0 100 (Payload.message commaFormMsg) pendingSys).2 = pendingSys
  ∧ (webhookPost okCtx 0 100 (Payload.message commandFormMsg) pendingSys).2 = pendingSys
  ∧ (webhookPost okCtx 0 100 (Payload.message missingDateMsg) pendingSys).2 = pendingSys
  ∧ ((webhookPost okCtx 0 100 (Payload.message bookMsg)
        pendingSys).2.db.bookings.length = 2) := by decide

/-- C2 counterexample: a status update applied to a booking already in a
terminal status overwrites it — the UPDATE of updateStatus is keyed on the id
alone, not conditioned on the prior status, so the attempted transition is
not a no-op. -/
theorem C2_counterexample_terminal_overwritten :
    c2db.bookings.map Booking.status = ["confirmed"]
  ∧ (bookingModel.updateStatus c2db 1 "rejected").1.bookings.map Booking.status =
      ["rejected"] := by decide

/-- C6 (sweep modelled from the spec): the expiration step turns a due hold
into expired, touches nothing that is not a hold (in particular rows already
expired or confirmed), and the sweep is idempotent. -/
theorem C6_expiration_sweep :
    (∀ now b, b.status = "hold" → (∃ t, b.hold_expires_at = some t ∧ t ≤ now) →
        (expireStep now b).status = "expired")
  ∧ (∀ now b, b.status ≠ "hold" → expireStep now b = b)
  ∧ (∀ now bs, expireHolds now (expireHolds now bs) = expireHolds now bs) := by
  have hstep : ∀ now b, b.status ≠ "hold" → expireStep now b = b := by
    intro now b hb
    have : holdDue now b = false := by
      unfold holdDue
      simp [hb]
    simp [expireStep, this]
  refine ⟨?_, hstep, ?_⟩
  · intro now b hb ⟨t, ht, hle⟩
    simp [expireStep, holdDue, hb, ht, hle]
  · intro now bs
    unfold expireHolds
    rw [List.map_map]
    apply List.map_congr_left
    intro b _
    show expireStep now (expireStep now b) = expireStep now b
    by_cases h : holdDue now b = true
    · have h2 : (expireStep now b).status = "expired" := by
        simp [expireStep, h]
      exact hstep now _ (by rw [h2]; decide)
    · have hb : expireStep now b = b := by
        simp [expireStep, h]
      rw [hb]
      exact hb

/-- C6 witness: a due hold expires, and re-running the sweep over a list
containing an already-processed hold and a confirmed row changes nothing. -/
theorem C6_expiration_sweep_witness :
    (expireStep 10 dueHold).status = "expired"
  ∧ expireHolds 10 (expireHolds 10 [dueHold, confirmedHold]) =
      expireHolds 10 [dueHold, confirmedHold] :=
  ⟨C6_expiration_sweep.1 10 dueHold rfl ⟨5, rfl, by decide⟩,
   C6_expiration_sweep.2.2 10 [dueHold, confirmedHold]⟩

/-! ### Reminder sweep lemmas -/

theorem reminderStep_db_invariants (ctx : Ctx) (now : Nat) (s : Sys) (b : Booking) :
    (reminderService.step ctx now s b).db.bookings = s.db.bookings
  ∧ (reminderService.step ctx now s b).db.routes = s.db.routes := by
  unfold reminderService.step
  split
  · exact ⟨rfl, rfl⟩
  · split
    · rename_i s1 hsm
      have h1 := (sendMessage_error hsm).1
      exact ⟨by rw [h1], by rw [h1]⟩
    · rename_i s1 hsm
      have h1 := (sendMessage_ok hsm).1
      refine ⟨?_, ?_⟩
      · show s1.db.bookings = s.db.bookings
        rw [h1]
      · show s1.db.routes = s.db.routes
        rw [h1]

theorem reminderSendCount_append (sent : List SentMsg) (e : SentMsg) (bid : Nat) :
    reminderSendCount (sent ++ [e]) bid =
      reminderSendCount sent bid +
        (if e.tag == MsgTag.reminder bid then 1 else 0) := by
  unfold reminderSendCount
  rw [List.filter_append, List.length_append]
  congr 1
  by_cases h : (e.tag == MsgTag.reminder bid) = true
  · simp [h]
  · simp [h]

theorem reminderStep_sent_cases (ctx : Ctx) (now : Nat) (s : Sys) (b : Booking) :
    ∃ l, (reminderService.step ctx now s b).db.message_logs = s.db.message_logs ++ l ∧
      ((reminderService.step ctx now s b).sent = s.sent ∨
        ((reminderService.step ctx now s b).sent =
            s.sent ++ [{ recipient := b.customer_phone, tag := MsgTag.reminder b.id }] ∧
          hasReminderLog (reminderService.step ctx now s b).db b.id = true)) := by
  unfold reminderService.step
  split
  · exact ⟨[], by simp, Or.inl rfl⟩
  · split
    · rename_i s1 hsm
      have h1 := sendMessage_error hsm
      refine ⟨[], ?_, Or.inl ?_⟩
      · rw [h1.1]
        simp
      · exact h1.2
    · rename_i s1 hsm
      have h1 := sendMessage_ok hsm
      refine ⟨[{ id := s.db.next_log_id, booking_id := some b.id, type := "reminder", sent_at := now }],
        ?_, Or.inr ⟨?_, ?_⟩⟩
      · show (messageLogModel.create s1.db (some b.id) "reminder" now).1.message_logs = _
        rw [h1.1]
        rfl
      · show s1.sent = _
        rw [h1.2]
      · unfold hasReminderLog
        show (s1.db.message_logs ++ [({ id := s1.db.next_log_id, booking_id := some b.id, type := "reminder", sent_at := now } : MessageLog)]).any _ = true
        rw [List.any_append]
        simp

theorem reminderLoop_db_invariants (ctx : Ctx) (now : Nat) (bs : List Booking) :
    ∀ t : Sys, ((bs.foldl (reminderService.step ctx now) t).db.bookings = t.db.bookings
      ∧ (bs.foldl (reminderService.step ctx now) t).db.routes = t.db.routes) := by
  induction bs with
  | nil =>
    intro t
    exact ⟨rfl, rfl⟩
  | cons b tl ih =>
    intro t
    rw [List.foldl_cons]
    obtain ⟨h1, h2⟩ := ih (reminderService.step ctx now t b)
    obtain ⟨g1, g2⟩ := reminderStep_db_invariants ctx now t b
    exact ⟨by rw [h1, g1], by rw [h2, g2]⟩

theorem reminderLoop_logs_mono (ctx : Ctx) (now : Nat) (bs : List Booking) :
    ∀ t : Sys, ∃ l, (bs.foldl (reminderService.step ctx now) t).db.message_logs =
      t.db.message_logs ++ l := by
  induction bs with
  | nil =>
    intro t
    exact ⟨[], by simp⟩
  | cons b tl ih =>
    intro t
    rw [List.foldl_cons]
    obtain ⟨l1, h1⟩ := ih (reminderService.step ctx now t b)
    obtain ⟨l0, h0, _⟩ := reminderStep_sent_cases ctx now t b
    refine ⟨l0 ++ l1, ?_⟩
    rw [h1, h0, List.append_assoc]

theorem hasReminderLog_mono {db1 db2 : DB} {l : List MessageLog} {bid : Nat}
    (h : db2.message_logs = db1.message_logs ++ l)
    (h1 : hasReminderLog db1 bid = true) : hasReminderLog db2 bid = true := by
  unfold hasReminderLog at h1 ⊢
  rw [h, List.any_append, h1]
  simp

theorem reminderLoop_count (ctx : Ctx) (now : Nat) (bid : Nat) (bs : List Booking) :
    ∀ t : Sys, reminderSendCount ((bs.foldl (reminderService.step ctx now) t).sent) bid ≤
      reminderSendCount t.sent bid + (bs.filter (fun b => b.id == bid)).length := by
  induction bs with
  | nil =>
    intro t
    simp
  | cons b tl ih =>
    intro t
    rw [List.foldl_cons, List.filter_cons]
    have hstep : reminderSendCount ((reminderService.step ctx now t b).sent) bid ≤
        reminderSendCount t.sent bid + (if (b.id == bid) = true then 1 else 0) := by
      obtain ⟨l, _, hcase⟩ := reminderStep_sent_cases ctx now t b
      rcases hcase with hc | ⟨hc, _⟩
      · rw [hc]
        exact Nat.le_add_right _ _
      · rw [hc, reminderSendCount_append]
        by_cases h : b.id = bid
        · simp [h]
        · simp [h]
    have h1 := ih (reminderService.step ctx now t b)
    by_cases h : (b.id == bid) = true
    · simp [h] at hstep ⊢
      omega
    · simp [h] at hstep ⊢
      omega

theorem reminderLoop_send_implies_log (ctx : Ctx) (now : Nat) (bid : Nat)
    (bs : List Booking) :
    ∀ t : Sys, reminderSendCount t.sent bid <
        reminderSendCount ((bs.foldl (reminderService.step ctx now) t).sent) bid →
      hasReminderLog ((bs.foldl (reminderService.step ctx now) t).db) bid = true := by
  induction bs with
  | nil =>
    intro t h
    exact absurd h (lt_irrefl _)
  | cons b tl ih =>
    intro t h
    rw [List.foldl_cons] at h ⊢
    obtain ⟨l, hl, hcase⟩ := reminderStep_sent_cases ctx now t b
    rcases hcase with hc | ⟨hc, hlog⟩
    · refine ih _ ?_
      rw [hc]
      exact h
    · by_cases hb : b.id = bid
      · have hstep_log : hasReminderLog (reminderService.step ctx now t b).db bid = true := by
          rw [← hb]
          exact hlog
        obtain ⟨l2, hl2⟩ := reminderLoop_logs_mono ctx now tl (reminderService.step ctx now t b)
        exact hasReminderLog_mono hl2 hstep_log
      · refine ih _ ?_
        have hcount : reminderSendCount (reminderService.step ctx now t b).sent bid =
            reminderSendCount t.sent bid := by
          rw [hc, reminderSendCount_append]
          simp [hb]
        rw [hcount]
        exact h

/-- A selected booking has no reminder log row (the ml.id IS NULL condition of
the LEFT JOIN). -/
theorem selection_no_log {db : DB} {now : Nat} {b : Booking}
    (h : b ∈ bookingModel.findBookingsNeedingReminders db now) :
    hasReminderLog db b.id = false := by
  unfold bookingModel.findBookingsNeedingReminders at h
  have h2 : (b.status == "confirmed" &&
      !(db.message_logs.any (fun ml => ml.booking_id == some b.id && ml.type == "reminder")) &&
      (match bookingModel.departureAt db b with
       | some t => decide (now ≤ t) && decide (t ≤ now + 360)
       | none => false)) = true := (List.mem_filter.mp h).2
  cases hx : (db.message_logs.any fun ml => ml.booking_id == some b.id && ml.type == "reminder")
  · exact hx
  · rw [hx] at h2
    simp at h2

theorem selection_nodup {db : DB} {now : Nat}
    (h : (db.bookings.map Booking.id).Nodup) :
    ((bookingModel.findBookingsNeedingReminders db now).map Booking.id).Nodup := by
  unfold bookingModel.findBookingsNeedingReminders
  exact List.Nodup.sublist (List.Sublist.map Booking.id (List.filter_sublist _)) h

/-- C7: the reminder selection excludes every booking that already has a
reminder log row, and two sequential sweeps (the second seeing the logs the
first wrote) send at most one reminder per booking id. -/
theorem C7_reminder_dedup (ctx : Ctx) (now1 now2 : Nat) (s : Sys)
    (hnd : (s.db.bookings.map Booking.id).Nodup) :
    (∀ b ∈ bookingModel.findBookingsNeedingReminders s.db now1,
        hasReminderLog s.db b.id = false)
  ∧ ∀ bid : Nat,
      reminderSendCount (reminderService.sendReminders ctx now2
          (reminderService.sendReminders ctx now1 s)).sent bid ≤
        reminderSendCount s.sent bid + 1 := by
  refine ⟨fun b hb => selection_no_log hb, ?_⟩
  intro bid
  unfold reminderService.sendReminders
  have hbk1 : ((bookingModel.findBookingsNeedingReminders s.db now1).foldl
      (reminderService.step ctx now1) s).db.bookings = s.db.bookings :=
    (reminderLoop_db_invariants ctx now1 _ s).1
  have hc1 := reminderLoop_count ctx now1 bid
    (bookingModel.findBookingsNeedingReminders s.db now1) s
  have hle1 : ((bookingModel.findBookingsNeedingReminders s.db now1).filter
      (fun b => b.id == bid)).length ≤ 1 :=
    filter_byId_length_le_one (selection_nodup hnd) bid
  have hnd1 : ((((bookingModel.findBookingsNeedingReminders s.db now1).foldl
      (reminderService.step ctx now1) s).db.bookings).map Booking.id).Nodup := by
    rw [hbk1]
    exact hnd
  have hc2 := reminderLoop_count ctx now2 bid
    (bookingModel.findBookingsNeedingReminders
      (((bookingModel.findBookingsNeedingReminders s.db now1).foldl
        (reminderService.step ctx now1) s).db) now2)
    ((bookingModel.findBookingsNeedingReminders s.db now1).foldl
      (reminderService.step ctx now1) s)
  by_cases hgt : reminderSendCount s.sent bid <
      reminderSendCount (((bookingModel.findBookingsNeedingReminders s.db now1).foldl
        (reminderService.step ctx now1) s).sent) bid
  · have hlog := reminderLoop_send_implies_log ctx now1 bid
      (bookingModel.findBookingsNeedingReminders s.db now1) s hgt
    have hnil : (bookingModel.findBookingsNeedingReminders
        (((bookingModel.findBookingsNeedingReminders s.db now1).foldl
          (reminderService.step ctx now1) s).db) now2).filter
        (fun b => b.id == bid) = [] := by
      rw [List.filter_eq_nil_iff]
      intro b hb
      simp only [beq_iff_eq]
      intro hbid
      have hno := selection_no_log hb
      rw [hbid] at hno
      rw [hno] at hlog
      exact Bool.noConfusion hlog
    rw [hnil] at hc2
    simp only [List.length_nil] at hc2
    omega
  · push_neg at hgt
    have hle2 : ((bookingModel.findBookingsNeedingReminders
        (((bookingModel.findBookingsNeedingReminders s.db now1).foldl
          (reminderService.step ctx now1) s).db) now2).filter
        (fun b => b.id == bid)).length ≤ 1 :=
      filter_byId_length_le_one (selection_nodup hnd1) bid
    omega

/-- C7 witness: the eligible confirmed booking has no prior reminder log, and
two sweeps in a row send it at most one reminder. -/
theorem C7_reminder_dedup_witness :
    hasReminderLog c7sys.db 1 = false
  ∧ reminderSendCount (reminderService.sendReminders okCtx 200
        (reminderService.sendReminders okCtx 200 c7sys)).sent 1 ≤
      reminderSendCount c7sys.sent 1 + 1 := by
  have h := C7_reminder_dedup okCtx 200 200 c7sys (by decide)
  exact ⟨h.1 c7booking (by decide), h.2 1⟩

/-! ### Rejection path lemmas -/

theorem find?_eq_some_of_pred {α : Type} {p : α → Bool} {l : List α}
    (h : ∃ x ∈ l, p x = true) : ∃ y, l.find? p = some y := by
  induction l with
  | nil =>
    obtain ⟨x, hx, _⟩ := h
    cases hx
  | cons a tl ih =>
    cases ha : p a with
    | true => exact ⟨a, by simp [List.find?, ha]⟩
    | false =>
      obtain ⟨x, hx, hpx⟩ := h
      rcases List.mem_cons.mp hx with hx' | hx'
      · rw [hx'] at hpx
        rw [ha] at hpx
        cases hpx
      · obtain ⟨y, hy⟩ := ih ⟨x, hx', hpx⟩
        exact ⟨y, by simp [List.find?, ha, hy]⟩

theorem updateStatus_snd_isSome {db : DB} {p : Booking} (hmem : p ∈ db.bookings)
    (st : String) : ∃ x, (bookingModel.updateStatus db p.id st).2 = some x := by
  unfold bookingModel.updateStatus
  rw [if_pos (List.any_eq_true.mpr ⟨p, hmem, by simp⟩)]
  exact find?_eq_some_of_pred ⟨_, List.mem_map_of_mem _ hmem, by simp⟩

theorem updateStatus_bookings_of_mem {db : DB} {p : Booking} (hmem : p ∈ db.bookings)
    (st : String) :
    (bookingModel.updateStatus db p.id st).1.bookings =
      db.bookings.map (fun b => if b.id == p.id then { b with status := st } else b) := by
  unfold bookingModel.updateStatus
  rw [if_pos (List.any_eq_true.mpr ⟨p, hmem, by simp⟩)]

theorem updateStatus_fst_logs (db : DB) (i : Nat) (st : String) :
    ((bookingModel.updateStatus db i st).1).message_logs = db.message_logs := by
  unfold bookingModel.updateStatus
  split <;> rfl

theorem updateStatus_fst_next_log (db : DB) (i : Nat) (st : String) :
    ((bookingModel.updateStatus db i st).1).next_log_id = db.next_log_id := by
  unfold bookingModel.updateStatus
  split <;> rfl

theorem routeModel_findById_congr {db1 db2 : DB} (h : db1.routes = db2.routes) (i : Nat) :
    routeModel.findById db1 i = routeModel.findById db2 i := by
  unfold routeModel.findById
  rw [h]

/-- When the oracle never fails, a send delivers and appends its record. -/
theorem sendMessage_all_ok {ctx : Ctx} (hsend : ∀ i, ctx.sendFail i = false)
    (s : Sys) (r : String) (tag : MsgTag) :
    sendMessage ctx s r tag = Except.ok
      { s with sent := s.sent ++ [{ recipient := r, tag := tag }]
               sendIdx := s.sendIdx + 1 } := by
  unfold sendMessage
  rw [hsend s.sendIdx]
  rfl

/-- With a pending booking selected, its route present, and all sends
delivering, the rejection try block returns the fully updated state: status
rejected at the selected id, the rejection log row appended, and the two
notifications sent. -/
theorem rejectBookingTry_success (ctx : Ctx) (now : Nat) (opPhone : String) (s : Sys)
    (p : Booking) (r : Route)
    (hsend : ∀ i, ctx.sendFail i = false)
    (hp : getLatestPendingBooking s.db = some p)
    (hr : routeModel.findById s.db p.route_id = some r) :
    rejectBookingTry ctx now opPhone s = Except.ok
      { db := { (bookingModel.updateStatus s.db p.id "rejected").1 with
            message_logs := (bookingModel.updateStatus s.db p.id "rejected").1.message_logs ++
              [{ id := (bookingModel.updateStatus s.db p.id "rejected").1.next_log_id, booking_id := some p.id, type := "rejection", sent_at := now }]
            next_log_id := (bookingModel.updateStatus s.db p.id "rejected").1.next_log_id + 1 }
        sent := s.sent ++ [{ recipient := p.customer_phone, tag := MsgTag.bookingRejected p.id }, { recipient := opPhone, tag := MsgTag.rejectedOperatorNotice p.id }]
        sendIdx := s.sendIdx + 2 } := by
  obtain ⟨hmem, hpend, _⟩ := getLatestPendingBooking_spec hp
  obtain ⟨u, hu⟩ := updateStatus_snd_isSome hmem "rejected"
  have hr1 : routeModel.findById (bookingModel.updateStatus s.db p.id "rejected").1
      p.route_id = some r := by
    rw [routeModel_findById_congr (updateStatus_fst_routes s.db p.id "rejected") p.route_id]
    exact hr
  unfold rejectBookingTry
  rw [hp]
  simp only [hu, hr1, sendMessage_all_ok hsend]
  simp [List.append_assoc]
  rfl

theorem processPayload_operator_text (ctx : Ctx) (today now : Nat) (m : InMsg) (s : Sys)
    (op : Operator) (hmt : m.mtype = "text")
    (hop : operatorModel.findByPhone s.db (normalizePhoneNumber m.sender) = some op) :
    processPayload ctx today now (Payload.message m) s =
      handleOperatorMessage ctx now (normalizePhoneNumber m.sender)
        (jsTrim (jsToUpper m.body)) s := by
  unfold processPayload
  split
  · rename_i hcond
    exact Payload.noConfusion hcond
  · rename_i hcond
    exact Payload.noConfusion hcond
  · rename_i m2 hcond
    injection hcond with hm2
    subst hm2
    split
    · rename_i hcond2
      rw [hmt] at hcond2
      simp at hcond2
    · lift_lets
      intro nf txt
      split
      · rfl
      · rename_i hop2
        have hnf : nf = normalizePhoneNumber m.sender := rfl
        rw [hnf, hop] at hop2
        exact Option.noConfusion hop2

theorem handleOperatorMessage_no (ctx : Ctx) (now : Nat) (phone : String) (s : Sys) :
    handleOperatorMessage ctx now phone "NO" s = rejectBooking ctx now phone s := by
  unfold handleOperatorMessage
  rfl

/-- C10: an operator NO delivery selects the most recently created pending
booking, sets its status to rejected (a fourth status outside the
hold/confirmed/expired enumeration), sends the rejection message to that
customer, and appends a rejection message_log row for the booking. -/
theorem C10_operator_no_rejects (ctx : Ctx) (today now : Nat) (m : InMsg) (s : Sys)
    (p : Booking) (op : Operator) (r : Route)
    (hsend : ∀ i, ctx.sendFail i = false)
    (hmt : m.mtype = "text")
    (hbody : jsTrim (jsToUpper m.body) = "NO")
    (hop : operatorModel.findByPhone s.db (normalizePhoneNumber m.sender) = some op)
    (hp : getLatestPendingBooking s.db = some p)
    (hr : routeModel.findById s.db p.route_id = some r) :
    (p.status = "pending" ∧
        ∀ b ∈ s.db.bookings, b.status = "pending" → b.created_at ≤ p.created_at)
  ∧ (∀ row ∈ (webhookPost ctx today now (Payload.message m) s).2.db.bookings,
        row.id = p.id → row.status = "rejected")
  ∧ ({ recipient := p.customer_phone, tag := MsgTag.bookingRejected p.id } : SentMsg) ∈
      (webhookPost ctx today now (Payload.message m) s).2.sent
  ∧ (∃ ml ∈ (webhookPost ctx today now (Payload.message m) s).2.db.message_logs,
        ml.booking_id = some p.id ∧ ml.type = "rejection")
  ∧ "rejected" ∉ (["hold", "confirmed", "expired"] : List String) := by
  obtain ⟨hmem, hpend, hmax⟩ := getLatestPendingBooking_spec hp
  have hfinal : (webhookPost ctx today now (Payload.message m) s).2 =
      { db := { (bookingModel.updateStatus s.db p.id "rejected").1 with
            message_logs := (bookingModel.updateStatus s.db p.id "rejected").1.message_logs ++
              [{ id := (bookingModel.updateStatus s.db p.id "rejected").1.next_log_id, booking_id := some p.id, type := "rejection", sent_at := now }]
            next_log_id := (bookingModel.updateStatus s.db p.id "rejected").1.next_log_id + 1 }
        sent := s.sent ++ [{ recipient := p.customer_phone, tag := MsgTag.bookingRejected p.id }, { recipient := normalizePhoneNumber m.sender, tag := MsgTag.rejectedOperatorNotice p.id }]
        sendIdx := s.sendIdx + 2 } := by
    show processPayload ctx today now (Payload.message m) s = _
    rw [processPayload_operator_text ctx today now m s op hmt hop, hbody,
      handleOperatorMessage_no]
    unfold rejectBooking
    rw [rejectBookingTry_success ctx now (normalizePhoneNumber m.sender) s p r hsend hp hr]
  refine ⟨⟨hpend, hmax⟩, ?_, ?_, ?_, by decide⟩
  · intro row hrow hid
    rw [hfinal] at hrow
    have hrow2 : row ∈ s.db.bookings.map
        (fun b => if b.id == p.id then { b with status := "rejected" } else b) := by
      rw [← updateStatus_bookings_of_mem hmem "rejected"]
      exact hrow
    obtain ⟨b, hb, hfb⟩ := List.mem_map.mp hrow2
    by_cases hbi : b.id = p.id
    · rw [← hfb]
      simp [hbi]
    · exfalso
      rw [← hfb] at hid
      simp [hbi] at hid
  · rw [hfinal]
    simp
  · rw [hfinal]
    refine ⟨{ id := (bookingModel.updateStatus s.db p.id "rejected").1.next_log_id, booking_id := some p.id, type := "rejection", sent_at := now }, ?_, rfl, rfl⟩
    simp

/-- C10 witness: on the one-pending-booking state, the operator text no marks
booking 1 rejected and messages the customer. -/
theorem C10_operator_no_rejects_witness :
    ({ recipient := "9990001111", tag := MsgTag.bookingRejected 1 } : SentMsg) ∈
      (webhookPost okCtx 0 100 (Payload.message operatorNoMsg) pendingSys).2.sent
  ∧ ((webhookPost okCtx 0 100 (Payload.message operatorNoMsg)
        pendingSys).2.db.bookings[0]!).status = "rejected" := by
  have h := C10_operator_no_rejects okCtx 0 100 operatorNoMsg pendingSys pendingBooking1
    seedOperator seedRoute (fun _ => rfl) rfl (by decide) (by decide) (by decide) (by decide)
  exact ⟨h.2.2.1, h.2.1 _ (by decide) (by decide)⟩

end CommisionSaver
